import Mathlib

/-!
Verification of the face-lock tracking engine of
`face-tracking-with-mqtt-and-servo` (files `src/face_lock.py` and
`src/action_detector.py`) against its natural-language specification.

The embedding is shallow: Python floats become `ℚ`, pixel coordinates
become `Int`, frame counters become `Nat`, and a raised exception becomes
`none` in an `Option` result.  The external collaborators (camera frame,
OpenCV tracker, Haar detector, ONNX embedder, wall clock) enter as
per-frame inputs; the square root used by `np.linalg.norm` is an abstract
function parameter `sqrtFn`, since no verified property depends on its
value.  Wall-clock timestamps are threaded as rational inputs.
-/

namespace FaceLock

/-- Mode strings of `FaceLockState` (face_lock.py). -/
def SEARCHING : String := "searching"

/-- Mode string for the locked state. -/
def LOCKED : String := "locked"

/-- Mode string for the temporarily-lost state. -/
def LOST : String := "lost"

/-- A pixel-space bounding box (x1, y1, x2, y2), as used throughout
face_lock.py. -/
structure Box where
  x1 : Int
  y1 : Int
  x2 : Int
  y2 : Int
deriving DecidableEq, Repr

/-- A landmark set: a list of (x, y) points.  The contract says exactly 5
points (left eye, right eye, nose, left mouth, right mouth). -/
abbrev Kps := List (ℚ × ℚ)

/-- A detector candidate: bounding box, 5-point landmarks, and the
embedding the external ONNX embedder would produce for its aligned crop
(the embedder is an external inference call, so its output is part of the
per-frame input). -/
structure FaceDet where
  box : Box
  kps : Kps
  emb : List ℚ
deriving DecidableEq

/-- The identity database in iteration order: face_lock.py iterates
`self.db_names = sorted(self.db.keys())` and looks each name up in the
dict, which is exactly an association list walked left to right. -/
abbrev Db := List (String × List ℚ)

/-- `Action` dataclass of action_detector.py.  The human-readable
`description` string (a formatted f-string) is presentation-only and is
omitted from the embedding. -/
structure Action where
  action_type : String
  timestamp : ℚ
  confidence : ℚ
  value : ℚ
deriving DecidableEq

/-- Constructor parameters of `ActionDetector`.  `blink_threshold` is
stored by the source but never read by `_detect_blink` (which hardcodes
the 0.6 test); it is kept for fidelity. -/
structure ADConfig where
  blink_threshold : ℚ
  smile_threshold : ℚ
  movement_threshold_px : ℚ
  scale_change_threshold : ℚ
  blink_threshold_frames : Nat

/-- Default construction `ActionDetector()` as used by `FaceLockSystem`. -/
def ADConfig.default : ADConfig :=
  { blink_threshold := 0.15
    smile_threshold := 0.08
    movement_threshold_px := 8.0
    scale_change_threshold := 0.12
    blink_threshold_frames := 2 }

/-- Mutable history of `ActionDetector`.  `prev_kps` and
`prev_eye_opening` are written but never read by the source; they are
kept for fidelity. -/
structure ADState where
  prev_kps : Option Kps
  prev_eye_opening : Option ℚ
  prev_mouth_height : Option ℚ
  prev_nose_x : Option ℚ
  prev_eye_distance : Option ℚ
  blink_state : String
  blink_frames : Nat
deriving DecidableEq

/-- `ActionDetector.__init__` history fields. -/
def ADState.init : ADState :=
  { prev_kps := none
    prev_eye_opening := none
    prev_mouth_height := none
    prev_nose_x := none
    prev_eye_distance := none
    blink_state := "open"
    blink_frames := 0 }

/-- `_compute_eye_opening`: vertical eye span over inter-eye distance,
clipped to [0, 1]; `np.linalg.norm` is `sqrtFn` applied to the squared
norm. -/
def compute_eye_opening (sqrtFn : ℚ → ℚ) (left_eye right_eye : ℚ × ℚ) : ℚ :=
  let eye_dist := sqrtFn ((right_eye.1 - left_eye.1) ^ 2 + (right_eye.2 - left_eye.2) ^ 2)
  let vert_span := |right_eye.2 - left_eye.2|
  if eye_dist < 1 then 1
  else min (max (vert_span / eye_dist) 0) 1

/-- `_compute_mouth_height`: vertical mouth-corner span. -/
def compute_mouth_height (left_mouth right_mouth : ℚ × ℚ) : ℚ :=
  |right_mouth.2 - left_mouth.2|

/-- `_compute_eye_distance`: inter-eye distance. -/
def compute_eye_distance (sqrtFn : ℚ → ℚ) (left_eye right_eye : ℚ × ℚ) : ℚ :=
  sqrtFn ((right_eye.1 - left_eye.1) ^ 2 + (right_eye.2 - left_eye.2) ^ 2)

/-- `_detect_blink`: the 4-state blink machine, as a pure function of the
eye-opening ratio and the (blink_state, blink_frames) pair, returning the
optionally emitted action and the updated pair. -/
def detect_blink (cfg : ADConfig) (eye_opening : ℚ) (now : ℚ)
    (bstate : String) (bframes : Nat) : Option Action × String × Nat :=
  if eye_opening > 0.6 then
    if bstate = "closing" ∨ bstate = "closed" ∨ bstate = "opening" then
      if bstate = "opening" ∧ bframes > cfg.blink_threshold_frames then
        (some { action_type := "blink", timestamp := now, confidence := 0.85,
                value := eye_opening },
         "open", 0)
      else if ¬ bstate = "opening" then
        (none, "opening", 1)
      else
        (none, bstate, bframes)
    else
      (none, "open", 0)
  else
    if bstate = "open" then
      (none, "closing", 1)
    else if bstate = "closing" then
      let bf := bframes + 1
      if bf ≥ cfg.blink_threshold_frames then (none, "closed", 0)
      else (none, "closing", bf)
    else if bstate = "closed" then
      (none, "closed", bframes + 1)
    else
      (none, bstate, bframes)

/-- `_detect_smile`: mouth-height ratio against the previous frame. -/
def detect_smile (cfg : ADConfig) (mouth_height prev_mouth_height : ℚ) (now : ℚ) :
    Option Action :=
  if prev_mouth_height ≤ 0 then none
  else
    let ratio := mouth_height / prev_mouth_height
    if ratio > 1 + cfg.smile_threshold then
      some { action_type := "smile", timestamp := now,
             confidence := min 0.9 ((ratio - 1) / 0.15), value := ratio }
    else none

/-- `_detect_movement`: nose x-displacement against the previous frame. -/
def detect_movement (cfg : ADConfig) (nose : ℚ × ℚ) (now : ℚ)
    (prev_nose_x : Option ℚ) : List Action :=
  match prev_nose_x with
  | none => []
  | some px =>
    let delta_x := nose.1 - px
    if |delta_x| > cfg.movement_threshold_px then
      if delta_x > 0 then
        [{ action_type := "move_right", timestamp := now,
           confidence := min 0.95 (|delta_x| / 20), value := delta_x }]
      else
        [{ action_type := "move_left", timestamp := now,
           confidence := min 0.95 (|delta_x| / 20), value := |delta_x| }]
    else []

/-- `_detect_scale_change`: inter-eye distance ratio against the previous
frame. -/
def detect_scale_change (cfg : ADConfig) (eye_distance : ℚ) (now : ℚ)
    (prev_eye_distance : Option ℚ) : Option Action :=
  match prev_eye_distance with
  | none => none
  | some p =>
    if p ≤ 0 then none
    else
      let ratio := eye_distance / p
      if ratio > 1 + cfg.scale_change_threshold then
        some { action_type := "face_closer", timestamp := now,
               confidence := min 0.85 ((ratio - 1) / 0.15), value := ratio }
      else if ratio < 1 - cfg.scale_change_threshold then
        some { action_type := "face_farther", timestamp := now,
               confidence := min 0.85 ((1 - ratio) / 0.15), value := 1 / ratio }
      else none

/-- Body of `ActionDetector.detect` after the five landmarks have been
unpacked: the four metric checks in source order (blink, smile, movement,
scale change) followed by the history update. -/
def detectCore (cfg : ADConfig) (sqrtFn : ℚ → ℚ) (kps : Kps) (now : ℚ)
    (left_eye right_eye nose left_mouth right_mouth : ℚ × ℚ)
    (st : ADState) : List Action × ADState :=
  let eye_opening := compute_eye_opening sqrtFn left_eye right_eye
  let blink := detect_blink cfg eye_opening now st.blink_state st.blink_frames
  let actions : List Action := match blink.1 with
    | some a => [a]
    | none => []
  let mouth_height := compute_mouth_height left_mouth right_mouth
  let actions := match st.prev_mouth_height with
    | some pmh =>
      match detect_smile cfg mouth_height pmh now with
      | some a => actions ++ [a]
      | none => actions
    | none => actions
  let actions := actions ++ detect_movement cfg nose now st.prev_nose_x
  let eye_distance := compute_eye_distance sqrtFn left_eye right_eye
  let actions := match detect_scale_change cfg eye_distance now st.prev_eye_distance with
    | some a => actions ++ [a]
    | none => actions
  (actions,
   { prev_kps := some kps
     prev_eye_opening := some eye_opening
     prev_mouth_height := some mouth_height
     prev_nose_x := some nose.1
     prev_eye_distance := some eye_distance
     blink_state := blink.2.1
     blink_frames := blink.2.2 })

/-- `ActionDetector.detect`.  The source guards only `size == 0` and then
indexes rows 0 to 4; a nonempty array with fewer than 5 rows raises
`IndexError`, modelled by `none`. -/
def detect (cfg : ADConfig) (sqrtFn : ℚ → ℚ) (kps : Kps) (now : ℚ)
    (st : ADState) : Option (List Action × ADState) :=
  if kps.isEmpty then some ([], st)
  else
    match kps.get? 0, kps.get? 1, kps.get? 2, kps.get? 3, kps.get? 4 with
    | some le, some re, some no, some lm, some rm =>
      some (detectCore cfg sqrtFn kps now le re no lm rm st)
    | _, _, _, _, _ => none

/-- Drive the blink state machine over a sequence of eye-opening ratios,
recording the optionally emitted action of each frame. -/
def run_blink (cfg : ADConfig) : String → Nat → List ℚ → List (Option Action)
  | _, _, [] => []
  | bstate, bframes, r :: rest =>
    let step := detect_blink cfg r 0 bstate bframes
    step.1 :: run_blink cfg step.2.1 step.2.2 rest

/-- `cosine_similarity` of face_lock.py: a plain dot product, both vectors
being assumed L2-normalized by the embedder. -/
def cosine_similarity : List ℚ → List ℚ → ℚ
  | a :: as, b :: bs => a * b + cosine_similarity as bs
  | _, _ => 0

/-- `cosine_distance` of face_lock.py. -/
def cosine_distance (a b : List ℚ) : ℚ :=
  1 - cosine_similarity a b

/-- Construction-time parameters of `FaceLockSystem`. -/
structure Config where
  distance_threshold : ℚ
  lock_timeout_frames : Nat
  min_lock_confidence : ℚ
  recognition_interval : Nat
  min_face_size : Int

/-- `self.min_face_area = self.min_face_size * self.min_face_size`. -/
def Config.min_face_area (cfg : Config) : Int :=
  cfg.min_face_size * cfg.min_face_size

/-- `FaceLockState` of face_lock.py: the single mutable Lock State. -/
structure LockState where
  state : String
  locked_identity : Option String
  locked_bbox : Option Box
  locked_kps : Option Kps
  lock_confidence : ℚ
  frames_since_detection : Nat
  lock_acquired_time : Option ℚ
deriving DecidableEq

/-- `FaceLockState.__init__`. -/
def LockState.init : LockState :=
  { state := SEARCHING
    locked_identity := none
    locked_bbox := none
    locked_kps := none
    lock_confidence := 0
    frames_since_detection := 0
    lock_acquired_time := none }

/-- The full mutable state of `FaceLockSystem`: the Lock State plus the
tracking fields.  `tracker_ok` covers both `self._tracker is not None`
and `self._tracker_ok` (the source only sets the flag true after creating
a tracker object). -/
structure SysState where
  state : LockState
  tracker_ok : Bool
  frame_count : Nat
  cached_kps : Option Kps
  cached_confidence : ℚ
  ad : ADState

/-- Everything the environment feeds a single `process_frame` call: frame
dimensions, the raw OpenCV tracker answer (`none` models `ok == False`,
an exception, or a missing tracker answer), whether `Tracker.init` would
succeed this frame, the Haar-detector candidates with their embedder
outputs, and the wall clock. -/
structure FrameInput where
  H : Int
  W : Int
  trk : Option (Int × Int × Int × Int)
  init_ok : Bool
  faces : List FaceDet
  now : ℚ

/-- One entry of the `all_faces` output list. -/
structure FaceInfo where
  bbox : Box
  kps : Kps
  identity : Option String
  distance : ℚ
  confidence : ℚ

/-- The result dictionary of `process_frame`.  `detector_invoked` is
instrumentation: it is true exactly when the slow path ran the Haar
detector on this frame. -/
structure FrameResult where
  state : String
  locked_identity : Option String
  face_box : Option Box
  face_kps : Option Kps
  recognition_distance : Option ℚ
  lock_confidence : ℚ
  actions : List Action
  time_locked_seconds : Option ℚ
  all_faces : List FaceInfo
  detector_invoked : Bool

/-- `_is_recognition_frame`: always recognize while searching, otherwise
every `recognition_interval`-th frame of the running frame counter. -/
def is_recognition_frame (cfg : Config) (mode : String) (frame_count : Nat) : Bool :=
  if mode = SEARCHING then true
  else frame_count % cfg.recognition_interval == 0

/-- `_is_valid_face`: reject boxes below the minimum area or with a
width/height ratio outside [0.5, 2.0].  The source compares the float
ratio `w / h`; since the test runs only when `h > 0`, the comparisons
`w / h < 0.5` and `w / h > 2.0` are rendered as the integer comparisons
`2 * w < h` and `w > 2 * h` (see `aspect_band_char` below for the proved
equivalence). -/
def is_valid_face (cfg : Config) (b : Box) : Bool :=
  let w := b.x2 - b.x1
  let h := b.y2 - b.y1
  let area := w * h
  if area < cfg.min_face_area then false
  else if w ≤ 0 ∨ h ≤ 0 then false
  else if 2 * w < h ∨ w > 2 * h then false
  else true

/-- The integer aspect test of `is_valid_face` agrees with the float test
of the source whenever `h > 0`. -/
lemma aspect_band_char (w h : Int) (hh : 0 < h) :
    ((w : ℚ) / h < 1 / 2 ∨ (w : ℚ) / h > 2) ↔ (2 * w < h ∨ w > 2 * h) := by
  have hq : (0 : ℚ) < (h : ℚ) := by exact_mod_cast hh
  constructor
  · rintro (h1 | h2)
    · left
      have := (div_lt_iff₀ hq).mp h1
      have : (2 * w : ℚ) < h := by linarith
      exact_mod_cast this
    · right
      have := (lt_div_iff₀ hq).mp h2
      have : ((2 * h : Int) : ℚ) < w := by push_cast; linarith
      exact_mod_cast this
  · rintro (h1 | h2)
    · left
      rw [div_lt_iff₀ hq]
      have : ((2 * w : Int) : ℚ) < h := by exact_mod_cast h1
      push_cast at this ⊢
      linarith
    · right
      rw [gt_iff_lt, lt_div_iff₀ hq]
      have : ((2 * h : Int) : ℚ) < w := by exact_mod_cast h2
      push_cast at this ⊢
      linarith

/-- The near-lock candidate test of `process_frame` (LOCKED branch): the
center of the candidate box lies within `0.75 * locked height` of the
locked center.  The source computes
`((fcx - lcx)^2 + (fcy - lcy)^2)^0.5 < locked_h * 0.75` on floats; with
centers `(x1 + x2) / 2`, multiplying through by 16 gives the equivalent
integer test used here (see `near_lock_char` for the proved
equivalence). -/
def near_lock (lb : Box) (fb : Box) : Bool :=
  let dx := (fb.x1 + fb.x2) - (lb.x1 + lb.x2)
  let dy := (fb.y1 + fb.y2) - (lb.y1 + lb.y2)
  let h := lb.y2 - lb.y1
  decide (0 < h ∧ 4 * (dx * dx + dy * dy) < 9 * (h * h))

/-- The integer test of `near_lock` agrees with the float test of the
source: for a nonnegative radicand `d`, `Real.sqrt d < t` iff
`0 < t ∧ d < t ^ 2`. -/
lemma near_lock_char (lb fb : Box) :
    near_lock lb fb = true ↔
      Real.sqrt ((((fb.x1 + fb.x2 : Int) : ℝ) / 2 - ((lb.x1 + lb.x2 : Int) : ℝ) / 2) ^ 2 +
          (((fb.y1 + fb.y2 : Int) : ℝ) / 2 - ((lb.y1 + lb.y2 : Int) : ℝ) / 2) ^ 2) <
        ((lb.y2 - lb.y1 : Int) : ℝ) * (3 / 4) := by
  unfold near_lock
  simp only [decide_eq_true_eq]
  constructor
  · rintro ⟨hh, hd⟩
    have hhR : (0 : ℝ) < ((lb.y2 - lb.y1 : Int) : ℝ) := by exact_mod_cast hh
    have ht : (0 : ℝ) < ((lb.y2 - lb.y1 : Int) : ℝ) * (3 / 4) := by linarith
    rw [show ((lb.y2 - lb.y1 : Int) : ℝ) * (3 / 4) =
        Real.sqrt ((((lb.y2 - lb.y1 : Int) : ℝ) * (3 / 4)) ^ 2) by
      rw [Real.sqrt_sq ht.le]]
    apply Real.sqrt_lt_sqrt
    · positivity
    · have hdR : (4 * (((fb.x1 + fb.x2) - (lb.x1 + lb.x2)) * ((fb.x1 + fb.x2) - (lb.x1 + lb.x2)) +
          ((fb.y1 + fb.y2) - (lb.y1 + lb.y2)) * ((fb.y1 + fb.y2) - (lb.y1 + lb.y2))) : ℝ) <
          (9 * ((lb.y2 - lb.y1) * (lb.y2 - lb.y1)) : ℝ) := by exact_mod_cast hd
      push_cast at hdR ⊢
      nlinarith [hdR]
  · intro hs
    have ht : (0 : ℝ) < ((lb.y2 - lb.y1 : Int) : ℝ) * (3 / 4) :=
      lt_of_le_of_lt
        (Real.sqrt_nonneg
          ((((fb.x1 + fb.x2 : Int) : ℝ) / 2 - ((lb.x1 + lb.x2 : Int) : ℝ) / 2) ^ 2 +
            (((fb.y1 + fb.y2 : Int) : ℝ) / 2 - ((lb.y1 + lb.y2 : Int) : ℝ) / 2) ^ 2))
        hs
    have hh : (0 : Int) < lb.y2 - lb.y1 := by
      by_contra hcon
      push_neg at hcon
      have hcon2 : ((lb.y2 - lb.y1 : Int) : ℝ) ≤ 0 := by exact_mod_cast hcon
      nlinarith
    refine ⟨hh, ?_⟩
    have hd2 := (Real.sqrt_lt' ht).mp hs
    have hfin : (4 * (((fb.x1 + fb.x2) - (lb.x1 + lb.x2)) * ((fb.x1 + fb.x2) - (lb.x1 + lb.x2)) +
        ((fb.y1 + fb.y2) - (lb.y1 + lb.y2)) * ((fb.y1 + fb.y2) - (lb.y1 + lb.y2))) : ℝ) <
        (9 * ((lb.y2 - lb.y1) * (lb.y2 - lb.y1)) : ℝ) := by
      push_cast at hd2 ⊢
      nlinarith [hd2]
    exact_mod_cast hfin

/-- `max(valid_faces, key=area)` keeps the first maximal element: the
running maximum is replaced only on strict increase. -/
def face_area (f : FaceDet) : Int :=
  (f.box.x2 - f.box.x1) * (f.box.y2 - f.box.y1)

/-- Fold step of the pythonic `max` over a nonempty list, seeded with the
head. -/
def largest_face : FaceDet → List FaceDet → FaceDet
  | acc, [] => acc
  | acc, f :: rest => largest_face (if face_area f > face_area acc then f else acc) rest

/-- `[max(valid_faces, key=...)]` applied to a list known to be
nonempty; the empty case is unreachable behind the `isEmpty` guard in
`slowPathCore`. -/
def largest_of : List FaceDet → List FaceDet
  | [] => []
  | v :: vs => [largest_face v vs]

/-- `select_target`: reject names with no case-insensitive database
match, otherwise store the first matching database name (in database
casing) as the locked identity.  The history-logger side effect is
I/O and outside the embedding. -/
def select_target (dbNames : List String) (st : LockState) (name : String) :
    Bool × LockState :=
  if ((dbNames.map (fun n => n.toLower)).contains name.toLower) = false then
    (false, st)
  else
    match dbNames.find? (fun n => n.toLower == name.toLower) with
    | some dbn => (true, { st with locked_identity := some dbn })
    | none => (true, st)

/-- Accumulator of the best-match loop of `_recognize_face`;
`dist = none` plays the initial `float("inf")`. -/
structure RecBest where
  name : Option String
  dist : Option ℚ
  conf : ℚ
deriving DecidableEq

/-- Loop body of `_recognize_face`: strict improvement of the running
best distance; the name is accepted only at or below the threshold, the
confidence is `max(0, 1 - dist)`. -/
def rec_step (θ : ℚ) (emb : List ℚ) (acc : RecBest) (entry : String × List ℚ) :
    RecBest :=
  let dist := cosine_distance emb entry.2
  let better : Bool := match acc.dist with
    | none => true
    | some b => decide (dist < b)
  if better then
    { name := if dist ≤ θ then some entry.1 else none
      dist := some dist
      conf := max 0 (1 - dist) }
  else acc

/-- `_recognize_face`: empty database is the defined no-match condition
`(None, 1.0, 0.0)`; otherwise the fold above.  For a nonempty database
the final `dist` is always `some`, so the `getD 1` default is never
used. -/
def recognize_face (db : Db) (θ : ℚ) (emb : List ℚ) : Option String × ℚ × ℚ :=
  if db.isEmpty then (none, 1, 0)
  else
    let best := db.foldl (rec_step θ emb) { name := none, dist := none, conf := 0 }
    (best.name, best.dist.getD 1, best.conf)

/-- `_update_tracker`: clamp the raw tracker box to the frame and treat a
degenerate (< 10 px) box as failure.  The caller clears `tracker_ok`
whenever this returns `none`. -/
def update_tracker (H W : Int) (trk : Option (Int × Int × Int × Int)) : Option Box :=
  match trk with
  | none => none
  | some (x, y, w, h) =>
    let x1 := max 0 x
    let y1 := max 0 y
    let x2 := min W (x + w)
    let y2 := min H (y + h)
    if x2 - x1 < 10 ∨ y2 - y1 < 10 then none
    else some { x1 := x1, y1 := y1, x2 := x2, y2 := y2 }

/-- `_init_tracker`: a degenerate box never yields a valid tracker;
otherwise validity is the environment answer for `Tracker.init`. -/
def init_tracker (b : Box) (init_ok : Bool) : Bool :=
  if b.x2 - b.x1 ≤ 0 ∨ b.y2 - b.y1 ≤ 0 then false
  else init_ok

/-- Final `time_locked_seconds` update of `process_frame` (source lines
just before the return). -/
def finish_time (now : ℚ) (st : LockState) (r : FrameResult) : FrameResult :=
  if st.lock_acquired_time.isSome ∧ (st.state = LOCKED ∨ st.state = LOST) then
    { r with time_locked_seconds := st.lock_acquired_time.map (fun t => now - t) }
  else r

/-- Recognition loop of the slow path: build `all_faces` in order and
remember the last face recognized as the locked identity (the Python
loop overwrites `target_face` on every match). -/
def recog_step (db : Db) (θ : ℚ) (locked_identity : Option String)
    (acc : List FaceInfo × Option (FaceDet × Option String × ℚ × ℚ))
    (face : FaceDet) :
    List FaceInfo × Option (FaceDet × Option String × ℚ × ℚ) :=
  let r := recognize_face db θ face.emb
  let fi : FaceInfo := { bbox := face.box, kps := face.kps, identity := r.1,
                         distance := r.2.1, confidence := r.2.2 }
  let tf := if r.1 = locked_identity then some (face, r.1, r.2.1, r.2.2) else acc.2
  (acc.1 ++ [fi], tf)

/-- Slow path of `process_frame` (source lines 393 to 570): detector,
noise filter, candidate selection, recognition, and the state-machine
update.  The `result` argument arrives with `detector_invoked = false`;
the `slowPath` wrapper below stamps the flag on every emitted result. -/
def slowPathCore (sqrtFn : ℚ → ℚ) (cfg : Config) (db : Db) (s : SysState)
    (fc : Nat) (inp : FrameInput) (result : FrameResult) :
    Option (SysState × FrameResult) :=
  let st := s.state
  let detected_faces := inp.faces
  if detected_faces.isEmpty then
    let fsd := st.frames_since_detection + 1
    if st.state = LOCKED then
      if fsd > cfg.lock_timeout_frames then
        some ({ s with
                frame_count := fc, tracker_ok := false,
                state := { st with
                           state := SEARCHING, locked_bbox := none,
                           locked_kps := none, frames_since_detection := fsd } },
              result)
      else
        some ({ s with
                frame_count := fc,
                state := { st with state := LOST, frames_since_detection := fsd } },
              { result with state := LOST })
    else
      some ({ s with
              frame_count := fc,
              state := { st with frames_since_detection := fsd } },
            result)
  else
    let valid_faces := detected_faces.filter (fun f => is_valid_face cfg f.box)
    if valid_faces.isEmpty then
      some ({ s with
              frame_count := fc,
              state := { st with frames_since_detection := st.frames_since_detection + 1 } },
            result)
    else
      let st := { st with frames_since_detection := 0 }
      let faces_to_recognize :=
        if st.state = LOCKED ∧ st.locked_bbox.isSome then
          let lb := st.locked_bbox.getD { x1 := 0, y1 := 0, x2 := 0, y2 := 0 }
          let near := valid_faces.filter (fun f => near_lock lb f.box)
          if near.isEmpty then largest_of valid_faces else near
        else largest_of valid_faces
      let rec_out := faces_to_recognize.foldl
        (recog_step db cfg.distance_threshold st.locked_identity) ([], none)
      let result := { result with all_faces := rec_out.1 }
      match rec_out.2 with
      | some (face, _identity, distance, confidence) =>
        let result := { result with recognition_distance := some distance }
        let bbox := face.box
        if st.state = SEARCHING then
          if confidence ≥ cfg.min_lock_confidence then
            let st' := { st with
                         state := LOCKED, locked_bbox := some bbox,
                         locked_kps := some face.kps, lock_confidence := confidence,
                         lock_acquired_time := some inp.now }
            some ({ state := st', tracker_ok := init_tracker bbox inp.init_ok,
                    frame_count := fc, cached_kps := some face.kps,
                    cached_confidence := confidence, ad := s.ad },
                  finish_time inp.now st'
                    { result with
                      state := LOCKED, face_box := some bbox,
                      face_kps := some face.kps, lock_confidence := confidence })
          else
            some ({ s with state := st, frame_count := fc },
                  finish_time inp.now st result)
        else if st.state = LOCKED then
          let st' := { st with
                       locked_bbox := some bbox, locked_kps := some face.kps,
                       lock_confidence := confidence }
          match detect ADConfig.default sqrtFn face.kps inp.now s.ad with
          | none => none
          | some (acts, ad') =>
            some ({ state := st', tracker_ok := init_tracker bbox inp.init_ok,
                    frame_count := fc, cached_kps := some face.kps,
                    cached_confidence := confidence, ad := ad' },
                  finish_time inp.now st'
                    { result with
                      state := LOCKED, face_box := some bbox,
                      face_kps := some face.kps, lock_confidence := confidence,
                      actions := acts })
        else if st.state = LOST then
          if confidence ≥ cfg.min_lock_confidence then
            let st' := { st with
                         state := LOCKED, locked_bbox := some bbox,
                         locked_kps := some face.kps, lock_confidence := confidence }
            some ({ state := st', tracker_ok := init_tracker bbox inp.init_ok,
                    frame_count := fc, cached_kps := some face.kps,
                    cached_confidence := confidence, ad := s.ad },
                  finish_time inp.now st'
                    { result with
                      state := LOCKED, face_box := some bbox,
                      face_kps := some face.kps })
          else
            some ({ s with state := st, frame_count := fc },
                  finish_time inp.now st result)
        else
          some ({ s with state := st, frame_count := fc },
                finish_time inp.now st result)
      | none =>
        if st.state = LOCKED then
          let fsd := st.frames_since_detection + 1
          if fsd > cfg.lock_timeout_frames then
            let st' := { st with
                         state := SEARCHING, locked_bbox := none,
                         locked_kps := none, frames_since_detection := fsd }
            some ({ s with state := st', tracker_ok := false, frame_count := fc },
                  finish_time inp.now st' result)
          else
            let st' := { st with state := LOST, frames_since_detection := fsd }
            some ({ s with state := st', frame_count := fc },
                  finish_time inp.now st' { result with state := LOST })
        else
          some ({ s with state := st, frame_count := fc },
                finish_time inp.now st result)

/-- Slow path with the instrumentation flag: the Haar detector runs at
the top of the slow path, so every result it emits has
`detector_invoked = true`. -/
def slowPath (sqrtFn : ℚ → ℚ) (cfg : Config) (db : Db) (s : SysState)
    (fc : Nat) (inp : FrameInput) (result : FrameResult) :
    Option (SysState × FrameResult) :=
  match slowPathCore sqrtFn cfg db s fc inp result with
  | none => none
  | some (s', r) => some (s', { r with detector_invoked := true })

/-- `FaceLockSystem.process_frame`.  `none` models a Python exception
escaping the call (only possible through malformed landmarks reaching
`ActionDetector.detect`). -/
def process_frame (sqrtFn : ℚ → ℚ) (cfg : Config) (db : Db)
    (s : SysState) (inp : FrameInput) : Option (SysState × FrameResult) :=
  let fc := s.frame_count + 1
  let st := s.state
  let result : FrameResult :=
    { state := st.state, locked_identity := st.locked_identity,
      face_box := st.locked_bbox, face_kps := st.locked_kps,
      recognition_distance := none, lock_confidence := st.lock_confidence,
      actions := [], time_locked_seconds := none, all_faces := [],
      detector_invoked := false }
  if (st.state = LOCKED ∨ st.state = LOST) ∧
      is_recognition_frame cfg st.state fc = false ∧ s.tracker_ok = true then
    match update_tracker inp.H inp.W inp.trk with
    | some tracked_bbox =>
      let st' := { st with
                   locked_bbox := some tracked_bbox, state := LOCKED,
                   frames_since_detection := 0 }
      let result := { result with
                      state := LOCKED, face_box := some tracked_bbox,
                      face_kps := s.cached_kps, lock_confidence := s.cached_confidence,
                      time_locked_seconds := st.lock_acquired_time.map (fun t => inp.now - t) }
      match s.cached_kps with
      | some k =>
        match detect ADConfig.default sqrtFn k inp.now s.ad with
        | none => none
        | some (acts, ad') =>
          some ({ s with state := st', frame_count := fc, ad := ad' },
                { result with actions := acts })
      | none =>
        some ({ s with state := st', frame_count := fc }, result)
    | none =>
      slowPath sqrtFn cfg db { s with tracker_ok := false } fc inp result
  else
    slowPath sqrtFn cfg db s fc inp result

/-- Run a frame sequence, recording the mode after each frame. -/
def run_modes (sqrtFn : ℚ → ℚ) (cfg : Config) (db : Db) :
    SysState → List FrameInput → Option (List String)
  | _, [] => some []
  | s, inp :: rest =>
    match process_frame sqrtFn cfg db s inp with
    | none => none
    | some (s', _) =>
      match run_modes sqrtFn cfg db s' rest with
      | none => none
      | some tr => some (s'.state.state :: tr)

/-- Run a frame sequence, returning the final mode and loss counter. -/
def run_final (sqrtFn : ℚ → ℚ) (cfg : Config) (db : Db) :
    SysState → List FrameInput → Option (String × Nat)
  | s, [] => some (s.state.state, s.state.frames_since_detection)
  | s, inp :: rest =>
    match process_frame sqrtFn cfg db s inp with
    | none => none
    | some (s', _) => run_final sqrtFn cfg db s' rest

/-! Concrete scenario material.  `sqrt_stub` is an arbitrary stand-in for
the external square root; the concrete runs below never force it. -/

/-- Arbitrary stand-in for the external square root in closed runs. -/
def sqrt_stub : ℚ → ℚ := fun q => q

/-- A well-formed 5-point landmark set. -/
def kps5 : Kps := [(100, 100), (150, 100), (125, 150), (110, 180), (140, 180)]

/-- The default construction of `FaceLockSystem` in face_lock.py. -/
def cfg0 : Config :=
  { distance_threshold := 0.54
    lock_timeout_frames := 30
    min_lock_confidence := 0.65
    recognition_interval := 15
    min_face_size := 60 }

/-- `cfg0` with a small lock-loss timeout of 3 frames. -/
def cfg3 : Config := { cfg0 with lock_timeout_frames := 3 }

/-- A session locked on the identity Alice, with an invalid tracker (so
every frame takes the slow path, as after repeated tracker failures). -/
def locked_state : SysState :=
  { state := { state := LOCKED
               locked_identity := some "Alice"
               locked_bbox := some { x1 := 100, y1 := 100, x2 := 200, y2 := 200 }
               locked_kps := some kps5
               lock_confidence := 0.9
               frames_since_detection := 0
               lock_acquired_time := none }
    tracker_ok := false
    frame_count := 0
    cached_kps := some kps5
    cached_confidence := 0.9
    ad := ADState.init }

/-- A frame on which the detector finds nothing. -/
def no_face_input : FrameInput :=
  { H := 480, W := 640, trk := none, init_ok := true, faces := [], now := 0 }

/-- A filter-passing face (147 px square) that no database entry matches. -/
def stranger_face : FaceDet :=
  { box := { x1 := 100, y1 := 100, x2 := 200, y2 := 200 }, kps := kps5, emb := [1] }

/-- A frame carrying only the unmatched filter-passing face. -/
def stranger_input : FrameInput := { no_face_input with faces := [stranger_face] }

/-- A 10 by 10 face, far below the 60 by 60 minimum: pure detector noise. -/
def noise_face : FaceDet :=
  { box := { x1 := 0, y1 := 0, x2 := 10, y2 := 10 }, kps := kps5, emb := [1] }

/-- A frame carrying only the noise face. -/
def noise_input : FrameInput := { no_face_input with faces := [noise_face] }

/-- Claim C1.  The claim says that in mode `lost` a not-found frame keeps
the mode `lost` until the loss counter exceeds the timeout, after which
the mode flips to `searching`.  The code checks the timeout only while
the mode is `locked` (face_lock.py lines 399 and 550), so from `lost` the
mode never times out: starting locked with timeout 30, forty consecutive
zero-candidate frames leave the mode `lost` on every single frame — the
counter reaches 40 > 30 and `searching` is never entered. -/
theorem C1_lost_never_times_out :
    run_modes sqrt_stub cfg0 [] locked_state (List.replicate 40 no_face_input) =
      some (List.replicate 40 LOST) ∧
    run_final sqrt_stub cfg0 [] locked_state (List.replicate 40 no_face_input) =
      some (LOST, 40) := by
  constructor
  · decide
  · decide

/-- Claim C2.  With lock-loss timeout N = 3, the claim requires the 4th
consecutive not-found frame after `locked` to reach `searching` with no
tracker.  In the code the first not-found frame moves `locked` to `lost`
and the timeout branch is unreachable from `lost`, so frames 2, 3, 4 (and
beyond) all stay `lost`: with zero candidates the counter keeps growing
past the timeout (final counter 4 > 3) with the mode still `lost`; with a
detected, filter-passing, non-matching face present the counter is even
reset to 0 every frame (face_lock.py line 427), so it can never exceed
any timeout. -/
theorem C2_timeout_boundary_never_searching :
    run_modes sqrt_stub cfg3 [] locked_state (List.replicate 4 no_face_input) =
      some (List.replicate 4 LOST) ∧
    run_final sqrt_stub cfg3 [] locked_state (List.replicate 4 no_face_input) =
      some (LOST, 4) ∧
    run_modes sqrt_stub cfg3 [] locked_state (List.replicate 4 stranger_input) =
      some (List.replicate 4 LOST) ∧
    run_final sqrt_stub cfg3 [] locked_state (List.replicate 4 stranger_input) =
      some (LOST, 0) := by
  refine ⟨by decide, by decide, by decide, by decide⟩

/-- Claim C6.  When the noise filter removes every candidate the code
increments the loss counter but skips the state transitions of the
zero-detection step (face_lock.py lines 419 to 422 versus 396 to 413):
from `locked`, an all-noise frame leaves the mode `locked`, while the
equivalent zero-detection frame moves it to `lost`. -/
theorem C6_noise_frame_not_like_no_detection :
    (process_frame sqrt_stub cfg0 [] locked_state noise_input).map
        (fun p => (p.1.state.state, p.1.state.frames_since_detection)) =
      some (LOCKED, 1) ∧
    (process_frame sqrt_stub cfg0 [] locked_state no_face_input).map
        (fun p => (p.1.state.state, p.1.state.frames_since_detection)) =
      some (LOST, 1) := by
  refine ⟨by decide, by decide⟩

/-- Claim C7.  Recognition against an empty Identity Database is the
defined no-match condition (None, 1.0, 0.0) and total — no exception. -/
theorem C7_empty_db_no_match (θ : ℚ) (emb : List ℚ) :
    recognize_face [] θ emb = (none, 1, 0) := rfl

/-- Claim C5.  The claim says a completed blink cycle (ratio below 0.6
for 2 frames, then above 0.6) emits exactly one blink on the reopen
frame.  In the code, entering the `opening` state sets the frame counter
to 1 and nothing ever increments it there, while the emission guard
demands counter > 2 — so the blink action is unreachable.  The run below
performs two full close-reopen cycles and emits nothing on any frame
(the machine is stuck in `opening` from frame 3 on). -/
theorem C5_blink_cycle_emits_nothing :
    run_blink ADConfig.default "open" 0 [0.3, 0.3, 0.9, 0.9, 0.3, 0.3, 0.9] =
      [none, none, none, none, none, none, none] := by
  have hlo : ¬ ((0.3 : ℚ) > 0.6) := by norm_num
  have hhi : (0.9 : ℚ) > 0.6 := by norm_num
  have s1 : detect_blink ADConfig.default 0.3 0 "open" 0 = (none, "closing", 1) := by
    unfold detect_blink
    rw [if_neg hlo]
    decide
  have s2 : detect_blink ADConfig.default 0.3 0 "closing" 1 = (none, "closed", 0) := by
    unfold detect_blink
    rw [if_neg hlo]
    decide
  have s3 : detect_blink ADConfig.default 0.9 0 "closed" 0 = (none, "opening", 1) := by
    unfold detect_blink
    rw [if_pos hhi]
    decide
  have s4 : detect_blink ADConfig.default 0.9 0 "opening" 1 = (none, "opening", 1) := by
    unfold detect_blink
    rw [if_pos hhi]
    decide
  have s5 : detect_blink ADConfig.default 0.3 0 "opening" 1 = (none, "opening", 1) := by
    unfold detect_blink
    rw [if_neg hlo]
    decide
  simp [run_blink, s1, s2, s3, s4, s5]

/-- Claim C9 counterexample: a nonempty 1-point landmark array makes
`detect` fault (an `IndexError` at the landmark unpacking, `none` in the
embedding) instead of returning an empty action list as the claim
states. -/
theorem C9_short_landmarks_fault :
    detect ADConfig.default sqrt_stub [(1, 2)] 0 ADState.init = none := rfl

/-- Claim C9, amended: `detect` returns an empty action list only for a
size-0 landmark array; a nonempty array with fewer than 5 points faults
at the landmark indexing (IndexError, modelled by `none`); arrays with 5
or more points are processed normally. -/
theorem C9_landmark_guard (cfg : ADConfig) (sqrtFn : ℚ → ℚ) (kps : Kps)
    (now : ℚ) (st : ADState) :
    (kps = [] → detect cfg sqrtFn kps now st = some ([], st)) ∧
    (kps ≠ [] → kps.length < 5 → detect cfg sqrtFn kps now st = none) ∧
    (5 ≤ kps.length → ∃ out, detect cfg sqrtFn kps now st = some out) := by
  refine ⟨?_, ?_, ?_⟩
  · rintro rfl
    rfl
  · intro hne hlen
    match kps, hne, hlen with
    | [a], _, _ => rfl
    | [a, b], _, _ => rfl
    | [a, b, c], _, _ => rfl
    | [a, b, c, d], _, _ => rfl
    | [], hne, _ => exact absurd rfl hne
    | a :: b :: c :: d :: e :: rest, _, hlen => simp at hlen; omega
  · intro hlen
    match kps, hlen with
    | a :: b :: c :: d :: e :: rest, _ => exact ⟨_, rfl⟩
    | [], hlen => simp at hlen
    | [a], hlen => simp at hlen
    | [a, b], hlen => simp at hlen
    | [a, b, c], hlen => simp at hlen
    | [a, b, c, d], hlen => simp at hlen

/-- Witness for the amended C9 statement at a concrete 2-point array. -/
theorem C9_landmark_guard_witness :
    detect ADConfig.default sqrt_stub [(1, 2), (3, 4)] 0 ADState.init = none :=
  (C9_landmark_guard ADConfig.default sqrt_stub [(1, 2), (3, 4)] 0 ADState.init).2.1
    (by decide) (by decide)

/-- If no database name matches case-insensitively, the lowered name list
does not contain the lowered query. -/
lemma contains_lower_false {l : List String} {s : String}
    (h : l.find? (fun n => n.toLower == s.toLower) = none) :
    ((l.map (fun n => n.toLower)).contains s.toLower) = false := by
  induction l with
  | nil => rfl
  | cons a t ih =>
    have hpa : (a.toLower == s.toLower) = false := by
      by_contra hcon
      rw [Bool.not_eq_false] at hcon
      rw [@List.find?_cons_of_pos _ (fun n => n.toLower == s.toLower) a t hcon] at h
      cases h
    have hneg : ¬ ((fun n : String => n.toLower == s.toLower) a = true) := by
      simp only []
      simp [hpa]
    rw [@List.find?_cons_of_neg _ (fun n => n.toLower == s.toLower) a t hneg] at h
    rw [List.map_cons, List.contains_cons, ih h, Bool.or_false]
    have hne : a.toLower ≠ s.toLower := beq_eq_false_iff_ne.mp hpa
    exact beq_eq_false_iff_ne.mpr (fun hc => hne hc.symm)

/-- A case-insensitive database match makes the lowered name list contain
the lowered query. -/
lemma contains_lower_true {l : List String} {s dbn : String}
    (hmem : dbn ∈ l) (hlow : dbn.toLower = s.toLower) :
    ((l.map (fun n => n.toLower)).contains s.toLower) = true := by
  have hm : s.toLower ∈ l.map (fun n => n.toLower) :=
    List.mem_map.mpr ⟨dbn, hmem, hlow⟩
  simpa [List.contains] using List.elem_iff.mpr hm

/-- Claim C8.  With no case-insensitive match, `select_target` returns
False and leaves the Lock State untouched; with a match, it returns True
and stores the first matching database name — in database casing — as
the locked identity, changing nothing else. -/
theorem C8_select_target_spec (dbNames : List String) (st : LockState) (name : String) :
    (dbNames.find? (fun n => n.toLower == name.toLower) = none →
      select_target dbNames st name = (false, st)) ∧
    (∀ dbn, dbNames.find? (fun n => n.toLower == name.toLower) = some dbn →
      select_target dbNames st name = (true, { st with locked_identity := some dbn }) ∧
      dbn ∈ dbNames ∧ dbn.toLower = name.toLower) := by
  constructor
  · intro h
    unfold select_target
    rw [if_pos (contains_lower_false h)]
  · intro dbn h
    have hmem := List.mem_of_find?_eq_some h
    have hbeq := List.find?_some h
    have hlow : dbn.toLower = name.toLower := eq_of_beq hbeq
    refine ⟨?_, hmem, hlow⟩
    unfold select_target
    have hct : ((dbNames.map (fun n => n.toLower)).contains name.toLower) = true :=
      contains_lower_true hmem hlow
    rw [if_neg (by rw [hct]; simp), h]

/-- Evaluation of `rec_step` on the initial infinite distance. -/
lemma rec_step_none (θ : ℚ) (emb : List ℚ) (nm : Option String) (c : ℚ)
    (e : String × List ℚ) :
    rec_step θ emb ⟨nm, none, c⟩ e =
      ⟨if cosine_distance emb e.2 ≤ θ then some e.1 else none,
       some (cosine_distance emb e.2), max 0 (1 - cosine_distance emb e.2)⟩ := by
  unfold rec_step
  simp

/-- Evaluation of `rec_step` on a strict improvement. -/
lemma rec_step_some_lt {θ : ℚ} {emb : List ℚ} {nm : Option String} {d c : ℚ}
    {e : String × List ℚ} (h : cosine_distance emb e.2 < d) :
    rec_step θ emb ⟨nm, some d, c⟩ e =
      ⟨if cosine_distance emb e.2 ≤ θ then some e.1 else none,
       some (cosine_distance emb e.2), max 0 (1 - cosine_distance emb e.2)⟩ := by
  unfold rec_step
  simp [h]

/-- Evaluation of `rec_step` on a non-improvement (ties included): the
running best is kept, which is what makes the first minimizer win. -/
lemma rec_step_some_ge {θ : ℚ} {emb : List ℚ} {nm : Option String} {d c : ℚ}
    {e : String × List ℚ} (h : ¬ cosine_distance emb e.2 < d) :
    rec_step θ emb ⟨nm, some d, c⟩ e = ⟨nm, some d, c⟩ := by
  unfold rec_step
  simp [h]

/-- Characterization of the best-match fold of `_recognize_face` from a
running best distance `d`: either no entry beats `d` and the accumulator
survives unchanged, or the result is determined by the first entry
attaining the minimum distance of the list, which is strictly below `d`,
weakly below every entry, and strictly below all entries before it. -/
lemma rec_foldl_char (θ : ℚ) (emb : List ℚ) (l : List (String × List ℚ)) :
    ∀ (nm : Option String) (d c : ℚ),
      ((∀ e ∈ l, d ≤ cosine_distance emb e.2) ∧
        l.foldl (rec_step θ emb) ⟨nm, some d, c⟩ = ⟨nm, some d, c⟩)
      ∨ (∃ (i : Nat) (hi : i < l.length),
          cosine_distance emb (l.get ⟨i, hi⟩).2 < d ∧
          (∀ e ∈ l, cosine_distance emb (l.get ⟨i, hi⟩).2 ≤ cosine_distance emb e.2) ∧
          (∀ e ∈ l.take i,
            cosine_distance emb (l.get ⟨i, hi⟩).2 < cosine_distance emb e.2) ∧
          l.foldl (rec_step θ emb) ⟨nm, some d, c⟩ =
            ⟨if cosine_distance emb (l.get ⟨i, hi⟩).2 ≤ θ then some (l.get ⟨i, hi⟩).1
              else none,
             some (cosine_distance emb (l.get ⟨i, hi⟩).2),
             max 0 (1 - cosine_distance emb (l.get ⟨i, hi⟩).2)⟩) := by
  induction l with
  | nil =>
    intro nm d c
    exact Or.inl ⟨fun e he => absurd he (List.not_mem_nil e), rfl⟩
  | cons e t ih =>
    intro nm d c
    by_cases hde : cosine_distance emb e.2 < d
    · rw [List.foldl_cons, rec_step_some_lt hde]
      rcases ih (if cosine_distance emb e.2 ≤ θ then some e.1 else none)
          (cosine_distance emb e.2) (max 0 (1 - cosine_distance emb e.2)) with
        ⟨hge, hfold⟩ | ⟨i, hi, hlt, hmin, hfirst, hfold⟩
      · refine Or.inr ⟨0, by simp, by simpa using hde, ?_, ?_, by simpa using hfold⟩
        · intro x hx
          rcases List.mem_cons.mp hx with rfl | hx
          · simp
          · simpa using hge x hx
        · intro x hx
          simp at hx
      · refine Or.inr ⟨i + 1, by simpa using hi, ?_, ?_, ?_, ?_⟩
        · simpa using lt_trans hlt hde
        · intro x hx
          rcases List.mem_cons.mp hx with rfl | hx
          · simpa using le_of_lt hlt
          · simpa using hmin x hx
        · intro x hx
          rw [List.take_succ_cons] at hx
          rcases List.mem_cons.mp hx with rfl | hx
          · simpa using hlt
          · simpa using hfirst x hx
        · simpa using hfold
    · rw [List.foldl_cons, rec_step_some_ge hde]
      rcases ih nm d c with ⟨hge, hfold⟩ | ⟨i, hi, hlt, hmin, hfirst, hfold⟩
      · refine Or.inl ⟨?_, hfold⟩
        intro x hx
        rcases List.mem_cons.mp hx with rfl | hx
        · exact le_of_not_lt hde
        · exact hge x hx
      · refine Or.inr ⟨i + 1, by simpa using hi, ?_, ?_, ?_, ?_⟩
        · simpa using hlt
        · intro x hx
          rcases List.mem_cons.mp hx with rfl | hx
          · simpa using le_of_lt (lt_of_lt_of_le hlt (le_of_not_lt hde))
          · simpa using hmin x hx
        · intro x hx
          rw [List.take_succ_cons] at hx
          rcases List.mem_cons.mp hx with rfl | hx
          · simpa using lt_of_lt_of_le hlt (le_of_not_lt hde)
          · simpa using hfirst x hx
        · simpa using hfold

/-- Claim C4.  For a nonempty database, `_recognize_face` returns exactly
the data of the first entry attaining the minimum cosine distance: the
identity iff that distance is at or below the threshold (a candidate
exactly at the threshold is accepted), the minimum distance itself, and
confidence `max(0, 1 - distance)`; entries strictly before the returned
index all have strictly larger distance, so equal minima resolve to the
first entry in iteration order, deterministically. -/
theorem C4_recognition_min_first (db : Db) (θ : ℚ) (emb : List ℚ) (hne : db ≠ []) :
    ∃ (i : Nat) (hi : i < db.length),
      (∀ e ∈ db, cosine_distance emb (db.get ⟨i, hi⟩).2 ≤ cosine_distance emb e.2) ∧
      (∀ e ∈ db.take i,
        cosine_distance emb (db.get ⟨i, hi⟩).2 < cosine_distance emb e.2) ∧
      recognize_face db θ emb =
        ((if cosine_distance emb (db.get ⟨i, hi⟩).2 ≤ θ then some (db.get ⟨i, hi⟩).1
           else none),
         cosine_distance emb (db.get ⟨i, hi⟩).2,
         max 0 (1 - cosine_distance emb (db.get ⟨i, hi⟩).2)) := by
  match db, hne with
  | e :: t, _ =>
    unfold recognize_face
    rw [List.foldl_cons, rec_step_none]
    rcases rec_foldl_char θ emb t (if cosine_distance emb e.2 ≤ θ then some e.1 else none)
        (cosine_distance emb e.2) (max 0 (1 - cosine_distance emb e.2)) with
      ⟨hge, hfold⟩ | ⟨i, hi, hlt, hmin, hfirst, hfold⟩
    · refine ⟨0, by simp, ?_, ?_, ?_⟩
      · intro x hx
        rcases List.mem_cons.mp hx with rfl | hx
        · simp
        · simpa using hge x hx
      · intro x hx
        simp at hx
      · rw [hfold]
        simp
    · refine ⟨i + 1, by simpa using hi, ?_, ?_, ?_⟩
      · intro x hx
        rcases List.mem_cons.mp hx with rfl | hx
        · simpa using le_of_lt hlt
        · simpa using hmin x hx
      · intro x hx
        rw [List.take_succ_cons] at hx
        rcases List.mem_cons.mp hx with rfl | hx
        · simpa using hlt
        · simpa using hfirst x hx
      · rw [hfold]
        simp

/-- Witness for C4 on a database with an exact tie at the minimum: the
first entry in iteration order is the one returned. -/
theorem C4_recognition_min_first_witness :
    ∃ (i : Nat) (hi : i < ([("Alice", [1, 0]), ("Bob", [1, 0])] : Db).length),
      (∀ e ∈ ([("Alice", [1, 0]), ("Bob", [1, 0])] : Db),
        cosine_distance [1, 0] ((([("Alice", [1, 0]), ("Bob", [1, 0])] : Db).get ⟨i, hi⟩).2) ≤
          cosine_distance [1, 0] e.2) ∧
      (∀ e ∈ ([("Alice", [1, 0]), ("Bob", [1, 0])] : Db).take i,
        cosine_distance [1, 0] ((([("Alice", [1, 0]), ("Bob", [1, 0])] : Db).get ⟨i, hi⟩).2) <
          cosine_distance [1, 0] e.2) ∧
      recognize_face [("Alice", [1, 0]), ("Bob", [1, 0])] 0.54 [1, 0] =
        ((if cosine_distance [1, 0]
              ((([("Alice", [1, 0]), ("Bob", [1, 0])] : Db).get ⟨i, hi⟩).2) ≤ 0.54 then
            some ((([("Alice", [1, 0]), ("Bob", [1, 0])] : Db).get ⟨i, hi⟩).1)
          else none),
         cosine_distance [1, 0] ((([("Alice", [1, 0]), ("Bob", [1, 0])] : Db).get ⟨i, hi⟩).2),
         max 0 (1 - cosine_distance [1, 0]
           ((([("Alice", [1, 0]), ("Bob", [1, 0])] : Db).get ⟨i, hi⟩).2))) :=
  C4_recognition_min_first [("Alice", [1, 0]), ("Bob", [1, 0])] 0.54 [1, 0]
    (List.cons_ne_nil _ _)

/-- Witness for C8: selecting `alice` against the database
[Alice, Bob] succeeds and stores the database casing `Alice`. -/
theorem C8_select_target_spec_witness :
    select_target ["Alice", "Bob"] LockState.init "alice" =
      (true, { LockState.init with locked_identity := some "Alice" }) ∧
    "Alice" ∈ ["Alice", "Bob"] ∧ "Alice".toLower = "alice".toLower :=
  (C8_select_target_spec ["Alice", "Bob"] LockState.init "alice").2 "Alice" (by
    have h1 : "Alice".toLower = "alice" := by
      simp only [String.toLower, String.map_eq]
      decide
    have h2 : "alice".toLower = "alice" := by
      simp only [String.toLower, String.map_eq]
      decide
    simp [List.find?, h1, h2])

/-- A 5-point landmark list always unpacks, so `detect` succeeds. -/
lemma detect_some_of_len5 (cfg : ADConfig) (sqrtFn : ℚ → ℚ) (now : ℚ) (st : ADState)
    (k : Kps) (h : k.length = 5) :
    ∃ out, detect cfg sqrtFn k now st = some out := by
  match k, h with
  | [a, b, c, d, e], _ => exact ⟨_, rfl⟩

/-- While locked or lost, `_is_recognition_frame` is just the interval
test on the running frame counter. -/
lemma is_recognition_frame_of_tracked {cfg : Config} {mode : String} {fc : Nat}
    (hmode : mode = LOCKED ∨ mode = LOST) :
    is_recognition_frame cfg mode fc = (fc % cfg.recognition_interval == 0) := by
  unfold is_recognition_frame
  rcases hmode with h | h <;> rw [h] <;> simp [LOCKED, LOST, SEARCHING]

/-- Exact outcome of the fast path on a tracker success: the mode becomes
`locked`, the loss counter resets, the stored box is replaced by the
tracker box, cached landmarks and confidence are reused in the result,
the Action Detector runs on the cached landmarks, and the detector is
not invoked. -/
lemma fast_path_spec (sqrtFn : ℚ → ℚ) (cfg : Config) (db : Db) (s : SysState)
    (inp : FrameInput)
    (hmode : s.state.state = LOCKED ∨ s.state.state = LOST)
    (hK : is_recognition_frame cfg s.state.state (s.frame_count + 1) = false)
    (htok : s.tracker_ok = true)
    (b : Box) (hupd : update_tracker inp.H inp.W inp.trk = some b)
    (k : Kps) (hk : s.cached_kps = some k) (hk5 : k.length = 5) :
    ∃ acts ad', detect ADConfig.default sqrtFn k inp.now s.ad = some (acts, ad') ∧
      process_frame sqrtFn cfg db s inp = some
        ({ s with
           state := { s.state with
                      locked_bbox := some b, state := LOCKED,
                      frames_since_detection := 0 },
           frame_count := s.frame_count + 1, ad := ad' },
         { state := LOCKED, locked_identity := s.state.locked_identity,
           face_box := some b, face_kps := some k, recognition_distance := none,
           lock_confidence := s.cached_confidence, actions := acts,
           time_locked_seconds := s.state.lock_acquired_time.map (fun t => inp.now - t),
           all_faces := [], detector_invoked := false }) := by
  obtain ⟨out, hdet⟩ := detect_some_of_len5 ADConfig.default sqrtFn inp.now s.ad k hk5
  obtain ⟨acts, ad'⟩ := out
  refine ⟨acts, ad', hdet, ?_⟩
  have hcond : (s.state.state = LOCKED ∨ s.state.state = LOST) ∧
      is_recognition_frame cfg s.state.state (s.frame_count + 1) = false ∧
      s.tracker_ok = true := ⟨hmode, hK, htok⟩
  simp only [process_frame, if_pos hcond, hupd, hk, hdet]

/-- Every result the slow path emits is stamped as a detector
invocation. -/
lemma slowPath_detector_invoked {sqrtFn : ℚ → ℚ} {cfg : Config} {db : Db}
    {s : SysState} {fc : Nat} {inp : FrameInput} {r : FrameResult}
    {s' : SysState} {res : FrameResult}
    (h : slowPath sqrtFn cfg db s fc inp r = some (s', res)) :
    res.detector_invoked = true := by
  unfold slowPath at h
  cases hcore : slowPathCore sqrtFn cfg db s fc inp r with
  | none =>
    rw [hcore] at h
    cases h
  | some p =>
    obtain ⟨s0, r0⟩ := p
    rw [hcore] at h
    injection h with hpair
    injection hpair with hs hr
    rw [← hr]

/-- Claim C3.  While locked or lost: on a non-interval frame with a valid
tracker whose update succeeds, the slow path is skipped (detector not
invoked), the mode is set to `locked`, the loss counter resets, the
cached landmarks and confidence are reused in the result, and the Action
Detector runs on the cached landmarks; conversely on an interval frame
the Haar detector is invoked on any emitted result, tracker valid or
not. -/
theorem C3_fast_slow_switch (sqrtFn : ℚ → ℚ) (cfg : Config) (db : Db) (s : SysState)
    (inp : FrameInput) (hmode : s.state.state = LOCKED ∨ s.state.state = LOST) :
    ((s.frame_count + 1) % cfg.recognition_interval ≠ 0 →
      s.tracker_ok = true →
      ∀ b, update_tracker inp.H inp.W inp.trk = some b →
      ∀ k, s.cached_kps = some k → k.length = 5 →
      ∃ s' res, process_frame sqrtFn cfg db s inp = some (s', res) ∧
        res.detector_invoked = false ∧
        s'.state.state = LOCKED ∧
        s'.state.frames_since_detection = 0 ∧
        res.face_kps = some k ∧
        res.lock_confidence = s.cached_confidence ∧
        (∃ ad', detect ADConfig.default sqrtFn k inp.now s.ad = some (res.actions, ad'))) ∧
    ((s.frame_count + 1) % cfg.recognition_interval = 0 →
      ∀ s' res, process_frame sqrtFn cfg db s inp = some (s', res) →
        res.detector_invoked = true) := by
  constructor
  · intro hmod htok b hupd k hk hk5
    have hK : is_recognition_frame cfg s.state.state (s.frame_count + 1) = false := by
      rw [is_recognition_frame_of_tracked hmode]
      exact beq_eq_false_iff_ne.mpr hmod
    obtain ⟨acts, ad', hdet, hpf⟩ :=
      fast_path_spec sqrtFn cfg db s inp hmode hK htok b hupd k hk hk5
    exact ⟨_, _, hpf, rfl, rfl, rfl, rfl, rfl, ⟨ad', hdet⟩⟩
  · intro hmod s' res hpf
    have hK : is_recognition_frame cfg s.state.state (s.frame_count + 1) = true := by
      rw [is_recognition_frame_of_tracked hmode, hmod]
      rfl
    have hcond : ¬ ((s.state.state = LOCKED ∨ s.state.state = LOST) ∧
        is_recognition_frame cfg s.state.state (s.frame_count + 1) = false ∧
        s.tracker_ok = true) := by
      rintro ⟨_, h2, _⟩
      rw [hK] at h2
      cases h2
    unfold process_frame at hpf
    rw [if_neg hcond] at hpf
    exact slowPath_detector_invoked hpf

/-- Claim C10.  From `lost`, a fast-path tracker success transitions the
mode straight back to `locked`: the stored box is replaced by the tracker
box, the result reports the stale cached confidence, the stored lock
confidence is untouched, and the Detector, Embedder, Matcher and the
minimum-lock-confidence check are all bypassed (no detector invocation,
no dependence on the database or thresholds). -/
theorem C10_lost_fast_path_relock (sqrtFn : ℚ → ℚ) (cfg : Config) (db : Db)
    (s : SysState) (inp : FrameInput)
    (hmode : s.state.state = LOST)
    (hmod : (s.frame_count + 1) % cfg.recognition_interval ≠ 0)
    (htok : s.tracker_ok = true)
    (b : Box) (hupd : update_tracker inp.H inp.W inp.trk = some b)
    (k : Kps) (hk : s.cached_kps = some k) (hk5 : k.length = 5) :
    ∃ s' res, process_frame sqrtFn cfg db s inp = some (s', res) ∧
      s'.state.state = LOCKED ∧
      s'.state.locked_bbox = some b ∧
      s'.state.lock_confidence = s.state.lock_confidence ∧
      res.state = LOCKED ∧
      res.face_box = some b ∧
      res.lock_confidence = s.cached_confidence ∧
      res.detector_invoked = false := by
  have hK : is_recognition_frame cfg s.state.state (s.frame_count + 1) = false := by
    rw [is_recognition_frame_of_tracked (Or.inr hmode)]
    exact beq_eq_false_iff_ne.mpr hmod
  obtain ⟨acts, ad', hdet, hpf⟩ :=
    fast_path_spec sqrtFn cfg db s inp (Or.inr hmode) hK htok b hupd k hk hk5
  exact ⟨_, _, hpf, rfl, rfl, rfl, rfl, rfl, rfl, rfl⟩

/-- A locked session with a valid tracker on its second frame. -/
def fast_locked_state : SysState :=
  { locked_state with tracker_ok := true, frame_count := 1 }

/-- A lost session with a valid tracker and a stale cached confidence of
0.2, below the 0.65 minimum lock confidence of `cfg0`. -/
def lost_fast_state : SysState :=
  { locked_state with
    state := { locked_state.state with state := LOST }
    tracker_ok := true
    frame_count := 1
    cached_confidence := 0.2 }

/-- A frame whose raw tracker answer is the box (0, 0, 50, 50). -/
def trk_input : FrameInput := { no_face_input with trk := some (0, 0, 50, 50) }

/-- Witness for C3 at a concrete locked state and tracker success. -/
theorem C3_fast_slow_switch_witness :
    ∃ s' res, process_frame sqrt_stub cfg0 [] fast_locked_state trk_input = some (s', res) ∧
      res.detector_invoked = false ∧
      s'.state.state = LOCKED ∧
      s'.state.frames_since_detection = 0 ∧
      res.face_kps = some kps5 ∧
      res.lock_confidence = fast_locked_state.cached_confidence ∧
      (∃ ad', detect ADConfig.default sqrt_stub kps5 trk_input.now fast_locked_state.ad =
        some (res.actions, ad')) :=
  (C3_fast_slow_switch sqrt_stub cfg0 [] fast_locked_state trk_input (Or.inl rfl)).1
    (by decide) rfl { x1 := 0, y1 := 0, x2 := 50, y2 := 50 } (by decide) kps5 rfl (by decide)

/-- Witness for C10 at a concrete lost state whose cached confidence 0.2
is below the configured minimum lock confidence 0.65 — the relock happens
anyway. -/
theorem C10_lost_fast_path_relock_witness :
    ∃ s' res, process_frame sqrt_stub cfg0 [] lost_fast_state trk_input = some (s', res) ∧
      s'.state.state = LOCKED ∧
      s'.state.locked_bbox = some { x1 := 0, y1 := 0, x2 := 50, y2 := 50 } ∧
      s'.state.lock_confidence = lost_fast_state.state.lock_confidence ∧
      res.state = LOCKED ∧
      res.face_box = some { x1 := 0, y1 := 0, x2 := 50, y2 := 50 } ∧
      res.lock_confidence = lost_fast_state.cached_confidence ∧
      res.detector_invoked = false :=
  C10_lost_fast_path_relock sqrt_stub cfg0 [] lost_fast_state trk_input rfl
    (by decide) rfl { x1 := 0, y1 := 0, x2 := 50, y2 := 50 } (by decide) kps5 rfl (by decide)

end FaceLock
